import Mathlib

/-!
Verification of the kalshi-trading-bot decision pipeline and supervision runtime.

Numeric values are modelled as exact rationals (`ℚ`); Python dict fields that may
be absent are modelled as `Option` with the same defaults the code passes to
`dict.get`.  The `close_time` string of a market is modelled by the number of
whole days until close as parsed by `_score_timeframe`; a missing or unparseable
close time is `none` (both cases yield the same fallback score in the code).
-/

set_option maxHeartbeats 1000000

/-- A Kalshi market record (`market: Dict` in the Python code).  Every field the
scorer or sizer reads is present, each as an `Option` since the code accesses all
of them through `dict.get` with a default. -/
structure MarketRecord where
  last_price : Option ℚ := none
  yes_bid : Option ℚ := none
  yes_ask : Option ℚ := none
  volume_24h : Option ℚ := none
  open_interest : Option ℚ := none
  category : Option String := none
  ticker : Option String := none
  closeDays : Option Int := none
  cap_strike : Option ℚ := none
deriving DecidableEq

namespace MarketScorer

/-- The class-level `WEIGHTS` dict of `MarketScorer`, in insertion order. -/
def WEIGHTS : List (String × ℚ) :=
  [("liquidity", 25/100), ("edge", 35/100), ("timeframe", 20/100),
   ("volatility", 10/100), ("risk", 10/100)]

/-- `MarketScorer._score_liquidity`: volume, open-interest and spread components
combined 0.5/0.3/0.2; a spread of exactly 0 scores 0 ("no market"). -/
def score_liquidity (m : MarketRecord) : ℚ :=
  (min 1 (m.volume_24h.getD 0 / 5000)) * (5/10) +
  (if m.yes_ask.getD 100 - m.yes_bid.getD 0 = 0 then 0
   else max 0 (1 - (m.yes_ask.getD 100 - m.yes_bid.getD 0) / 10)) * (3/10) +
  (min 1 (m.open_interest.getD 0 / 10000)) * (2/10)

/-- The `edge_categories` dict of `_score_edge`, in insertion order. -/
def edgeCategories : List (String × ℚ) :=
  [("sports", 3/10), ("politics", 4/10), ("economics", 5/10),
   ("weather", 2/10), ("entertainment", 2/10)]

/-- Python's substring containment `sub in s`. -/
def strContains (s sub : String) : Bool :=
  (List.range (s.length + 1)).any fun i => sub.isPrefixOf (s.drop i)

/-- The keyword scan of `_score_edge`: first category keyword found as a
substring of the category or the ticker wins; default 0.3. -/
def baseEdge (category ticker : String) : List (String × ℚ) → ℚ
  | [] => 3/10
  | (cat, sc) :: rest =>
    if strContains category cat || strContains ticker cat then sc
    else baseEdge category ticker rest

/-- `MarketScorer._score_edge`: category keyword base plus a contrarian price
adjustment at extreme prices, clamped above at 1. -/
def score_edge (m : MarketRecord) : ℚ :=
  min 1 (baseEdge ((m.category.getD "").toLower) ((m.ticker.getD "").toLower) edgeCategories +
    (if m.last_price.getD 50 < 20 then (20 - m.last_price.getD 50) / 20 * (3/10)
     else if m.last_price.getD 50 > 80 then (m.last_price.getD 50 - 80) / 20 * (3/10)
     else 0))

/-- `MarketScorer._score_timeframe`: step function of days until close, with a
0.3 fallback for a missing or unparseable close time. -/
def score_timeframe (m : MarketRecord) : ℚ :=
  match m.closeDays with
  | none => 3/10
  | some d =>
    if d < 3 then 2/10
    else if d < 7 then 5/10
    else if d < 14 then 8/10
    else if d < 30 then 1
    else if d < 60 then 7/10
    else if d < 90 then 5/10
    else 3/10

/-- `MarketScorer._score_volatility`: distance from mid-price, with a 1.2x boost
(capped at 1) when 24h volume exceeds 2000. -/
def score_volatility (m : MarketRecord) : ℚ :=
  if m.volume_24h.getD 0 > 2000 then
    min 1 ((1 - |m.last_price.getD 50 - 50| / 50) * (12/10))
  else
    1 - |m.last_price.getD 50 - 50| / 50

/-- `MarketScorer._score_risk`: price-based downside measure combined 0.4/0.4/0.2
with the liquidity score and a binary-market bonus. -/
def score_risk (m : MarketRecord) : ℚ :=
  (if m.last_price.getD 50 < 30 then 1 - m.last_price.getD 50 / 30
   else if m.last_price.getD 50 > 70 then 1 - (100 - m.last_price.getD 50) / 30
   else 1/2) * (4/10) +
  score_liquidity m * (4/10) +
  (if m.cap_strike.isNone then (3/10 : ℚ) else 0) * (2/10)

/-- The weighted total of `MarketScorer.score_market`, scaled to 0-100. -/
def totalScore (m : MarketRecord) : ℚ :=
  (score_liquidity m * (25/100) + score_edge m * (35/100) + score_timeframe m * (20/100) +
   score_volatility m * (10/100) + score_risk m * (10/100)) * 100

/-- `MarketScorer._calculate_confidence` on the component scores. -/
def confidence (m : MarketRecord) : String :=
  if score_liquidity m > 6/10 ∧ score_edge m > 5/10 then "high"
  else if score_liquidity m < 3/10 ∨ score_edge m < 3/10 then "low"
  else "medium"

end MarketScorer

/-- The component-score breakdown handed from the scorer to the sizer
(`breakdown: Dict`); the sizer reads these three keys with `dict.get(_, 0)`. -/
structure Breakdown where
  edge : Option ℚ := none
  risk : Option ℚ := none
  liquidity : Option ℚ := none
deriving DecidableEq

/-- The `PositionSizer` constructor state, with the Python default arguments. -/
structure PositionSizer where
  capital : ℚ
  max_position_pct : ℚ := 15/100
  max_total_exposure : ℚ := 60/100
  kelly_fraction : ℚ := 25/100
  min_bet : ℚ := 2
deriving DecidableEq

namespace PositionSizer

/-- `max_exposure_left` local of `calculate_position`. -/
def max_exposure_left (ps : PositionSizer) (current_exposure : ℚ) : ℚ :=
  ps.capital * ps.max_total_exposure - current_exposure

/-- `true_prob` local of `calculate_position`: price nudged by
`(edge-0.3)*20` cents, clamped to [0,100]. -/
def true_prob (yes_price edge_score : ℚ) : ℚ :=
  max 0 (min 100 (yes_price + (edge_score - 3/10) * 20))

/-- The `edge` local of `calculate_position`: the YES branch when
`true_prob > yes_price`, otherwise the NO branch. -/
def kelly_edge (yes_price tp : ℚ) : ℚ :=
  if tp > yes_price then (tp - yes_price) / 100
  else ((100 - tp) - (100 - yes_price)) / 100

/-- The `confidence_multipliers` lookup with default 0.75. -/
def confidence_mult (confidence : String) : ℚ :=
  if confidence = "low" then 1/2
  else if confidence = "medium" then 3/4
  else if confidence = "high" then 1
  else 3/4

/-- Kelly amount scaled by the confidence and risk multipliers
(the `adjusted_amount` local before the caps are applied). -/
def raw_amount (ps : PositionSizer) (market : MarketRecord) (confidence : String)
    (breakdown : Breakdown) : ℚ :=
  ps.capital * (kelly_edge (market.last_price.getD 50)
      (true_prob (market.last_price.getD 50) (breakdown.edge.getD 0)) * ps.kelly_fraction) *
    confidence_mult confidence * (8/10 + breakdown.risk.getD 0 * (4/10))

/-- `adjusted_amount` after the per-position cap, the exposure cap, and the
floor to whole dollars (`math.floor`). -/
def sized_amount (ps : PositionSizer) (market : MarketRecord) (confidence : String)
    (breakdown : Breakdown) (current_exposure : ℚ) : ℚ :=
  ⌊min (min (raw_amount ps market confidence breakdown) (ps.capital * ps.max_position_pct))
      (max_exposure_left ps current_exposure)⌋

/-- `PositionSizer.calculate_position`.  The numeric formatting inside the
Python reason strings is abstracted; the guard branches keep their identifying
text and the acceptance reason keeps the chosen direction. -/
def calculate_position (ps : PositionSizer) (market : MarketRecord) (score : ℚ)
    (confidence : String) (breakdown : Breakdown) (current_exposure : ℚ) : ℚ × String :=
  if max_exposure_left ps current_exposure < ps.min_bet then
    (0, "No capital available (at max exposure)")
  else if score < 40 then (0, "Score too low")
  else if breakdown.edge.getD 0 < 3/10 then (0, "Insufficient edge")
  else if breakdown.liquidity.getD 0 < 2/10 then (0, "Poor liquidity")
  else if kelly_edge (market.last_price.getD 50)
      (true_prob (market.last_price.getD 50) (breakdown.edge.getD 0)) ≤ 0 then
    (0, "No positive edge detected")
  else if sized_amount ps market confidence breakdown current_exposure < ps.min_bet then
    (0, "Position too small")
  else
    (sized_amount ps market confidence breakdown current_exposure,
     (if true_prob (market.last_price.getD 50) (breakdown.edge.getD 0) >
         market.last_price.getD 50 then "YES" else "NO"))

end PositionSizer

/-- The observable state of a `Worker` (`base_supervisor.Worker`): health flag and
last-heartbeat timestamp, the latter in seconds on an absolute clock modelled as
a rational. -/
structure WorkerState where
  name : String
  healthy : Bool
  last_heartbeat : ℚ
deriving DecidableEq

/-- `Worker.heartbeat` executed at clock time `now`: refreshes the timestamp and
sets the health flag. -/
def WorkerState.heartbeat (now : ℚ) (w : WorkerState) : WorkerState :=
  { w with last_heartbeat := now, healthy := true }

/-- The observable state of a `BaseSupervisor`: its own health flag, started
flag, and owned workers. -/
structure SupervisorState where
  name : String
  workers : List WorkerState
  started : Bool
  healthy : Bool
deriving DecidableEq

/-- `BaseSupervisor.is_healthy` evaluated at clock time `now`: false if the
supervisor's own flag is down, or some worker's flag is down, or some worker's
heartbeat age exceeds the 300-second timeout. -/
def SupervisorState.is_healthy (now : ℚ) (s : SupervisorState) : Bool :=
  s.healthy && s.workers.all fun w => w.healthy && !(decide (now - w.last_heartbeat > 300))

/-- Lifecycle actions the orchestrator performs on its supervisors, in order. -/
inductive LifeEvent
  | startCalled (name : String)
  | taskCreated (name : String)
  | healthSweepCancelled
  | stopCalled (name : String)
  | taskCancelled (name : String)
deriving DecidableEq

/-- `SupervisorOrchestrator.start_all` on the happy path: iterate the ordered
supervisor map, calling `start()` and then creating the background task for
each entry. -/
def start_all : List (String × SupervisorState) → List LifeEvent
  | [] => []
  | (n, _) :: rest => LifeEvent.startCalled n :: LifeEvent.taskCreated n :: start_all rest

/-- The per-name body of the `stop_all` loop: `stop()` then cancel the task.
Exceptions during a stop are caught and logged, so every entry is visited. -/
def stopSweep : List String → List LifeEvent
  | [] => []
  | n :: rest => LifeEvent.stopCalled n :: LifeEvent.taskCancelled n :: stopSweep rest

/-- `SupervisorOrchestrator.stop_all`: cancel the health sweep, then iterate
`reversed(list(self.supervisors.keys()))`. -/
def stop_all (sups : List (String × SupervisorState)) : List LifeEvent :=
  LifeEvent.healthSweepCancelled :: stopSweep (sups.map Prod.fst).reverse

/-- The names on which `start()` is invoked, in invocation order. -/
def startCalls : List LifeEvent → List String
  | [] => []
  | LifeEvent.startCalled n :: tr => n :: startCalls tr
  | _ :: tr => startCalls tr

/-- The names on which `stop()` is invoked, in invocation order. -/
def stopCalls : List LifeEvent → List String
  | [] => []
  | LifeEvent.stopCalled n :: tr => n :: stopCalls tr
  | _ :: tr => stopCalls tr

/-- Outcome of one invocation of a supervisor's `run()` coroutine: it either
returns normally or lets an exception escape. -/
inductive RunResult (ε : Type)
  | returned
  | raised (e : ε)
deriving DecidableEq

/-- Observable actions of the orchestrator's restart wrapper. -/
inductive WrapEvent
  | runCall
  | backoffSleep
  | startCall
deriving DecidableEq

/-- `SupervisorOrchestrator._run_supervisor`: the `while True` wrapper, driven by
the outcomes of successive `run()` invocations (`runs i` is the outcome of the
i-th invocation).  `max_restarts` is the code's constant 3.  On a crash the
counter is incremented; once it reaches 3 the exception is re-raised (second
component `some e`), otherwise the wrapper sleeps 5 s and calls `start()` again.
`fuel` bounds how many loop iterations are examined, since the loop itself is
unbounded; an execution still looping when fuel runs out ends the trace with no
raised exception. -/
def run_supervisor (runs : Nat → RunResult ε) :
    Nat → Nat → Nat → List WrapEvent × Option ε
  | 0, _, _ => ([], none)
  | fuel + 1, i, restart_count =>
    match runs i with
    | RunResult.returned =>
      let r := run_supervisor runs fuel (i + 1) restart_count
      (WrapEvent.runCall :: r.1, r.2)
    | RunResult.raised e =>
      if 3 ≤ restart_count + 1 then ([WrapEvent.runCall], some e)
      else
        let r := run_supervisor runs fuel (i + 1) (restart_count + 1)
        (WrapEvent.runCall :: WrapEvent.backoffSleep :: WrapEvent.startCall :: r.1, r.2)

/-- Outcome of one `_main_loop()` invocation inside `BaseSupervisor.run`:
normal completion, cancellation, or an `Exception`-derived error. -/
inductive LoopResult (ε : Type)
  | ok
  | cancelled
  | err (e : ε)

/-- `BaseSupervisor.run`: while `started`, call `_main_loop()` then sleep 1 s;
`asyncio.CancelledError` breaks out of the loop; any other exception is logged
and followed by a 5 s cool-down, after which the loop continues.  `behav i` is
the outcome of the i-th `_main_loop()` invocation; `fuel` bounds the iterations
examined (`none` = still looping). -/
def base_run (behav : Nat → LoopResult ε) (started : Bool) :
    Nat → Nat → Option (RunResult ε)
  | 0, _ => none
  | fuel + 1, i =>
    if started then
      match behav i with
      | LoopResult.ok => base_run behav started fuel (i + 1)
      | LoopResult.cancelled => some RunResult.returned
      | LoopResult.err _ => base_run behav started fuel (i + 1)
    else some RunResult.returned

/-- The market of the spec's sizing example: last price 45¢, other fields absent. -/
def marketP45 : MarketRecord := { last_price := some 45 }

/-- The breakdown of the spec's sizing example: edge 0.6, risk 0.8, liquidity 0.9. -/
def breakdownHigh : Breakdown :=
  { edge := some (6/10), risk := some (8/10), liquidity := some (9/10) }

/-- `PositionSizer(capital=66.13)` with every other constructor default. -/
def sizerSmall : PositionSizer := { capital := 6613/100 }

/-- `PositionSizer(capital=100)` with every other constructor default. -/
def sizerCap100 : PositionSizer := { capital := 100 }

/-- A market quoted 50/50: spread exactly 0. -/
def marketSpread0 : MarketRecord := { yes_bid := some 50, yes_ask := some 50 }

/-- The same market quoted 50/51: spread 1 cent. -/
def marketSpread1 : MarketRecord := { yes_bid := some 50, yes_ask := some 51 }

/-- A market record whose only field is an out-of-range last price of 500¢. -/
def marketPrice500 : MarketRecord := { last_price := some 500 }

/-- A market record with all fields inside their Kalshi ranges. -/
def marketValid : MarketRecord :=
  { last_price := some 45, yes_bid := some 44, yes_ask := some 46,
    volume_24h := some 1000, open_interest := some 2000,
    category := some "economics", ticker := some "ECON-GDP",
    closeDays := some 20, cap_strike := none }

/-- A healthy-flagged worker whose last heartbeat was at clock time 0. -/
def staleWorker : WorkerState := { name := "w", healthy := true, last_heartbeat := 0 }

/-- A supervisor owning only `staleWorker`, with its own flag up. -/
def staleSup : SupervisorState :=
  { name := "s", workers := [staleWorker], started := true, healthy := true }

/-- The supervisor-health predicate exactly as the spec's sentence states it,
with a strict "heartbeat age is below 300 seconds" condition (refinement target
for the health claim; compare `SupervisorState.is_healthy`, which passes at age
exactly 300). -/
def specHealthy (now : ℚ) (s : SupervisorState) : Prop :=
  s.healthy = true ∧ ∀ w ∈ s.workers, w.healthy = true ∧ now - w.last_heartbeat < 300

/-! ## Supporting lemmas -/

theorem startCalls_start_all (sups : List (String × SupervisorState)) :
    startCalls (start_all sups) = sups.map Prod.fst := by
  induction sups with
  | nil => rfl
  | cons p rest ih => simp [start_all, startCalls, ih]

theorem stopCalls_stopSweep (l : List String) : stopCalls (stopSweep l) = l := by
  induction l with
  | nil => rfl
  | cons n rest ih => simp [stopSweep, stopCalls, ih]

theorem base_run_never_raises (ε : Type) (behav : Nat → LoopResult ε) (started : Bool) :
    ∀ (fuel i : Nat) (e : ε), base_run behav started fuel i ≠ some (RunResult.raised e) := by
  intro fuel
  induction fuel with
  | zero => intro i e h; exact Option.noConfusion h
  | succ n ih =>
    intro i e
    simp only [base_run]
    split
    · split
      · exact ih (i + 1) e
      · simp
      · exact ih (i + 1) e
    · simp

theorem run_supervisor_no_crash (ε : Type) (runs : Nat → RunResult ε)
    (h : ∀ i, runs i = RunResult.returned) :
    ∀ (fuel i c : Nat), (run_supervisor runs fuel i c).2 = none ∧
      WrapEvent.startCall ∉ (run_supervisor runs fuel i c).1 := by
  intro fuel
  induction fuel with
  | zero => intro i c; exact ⟨rfl, by simp [run_supervisor]⟩
  | succ n ih =>
    intro i c
    simp only [run_supervisor, h i]
    obtain ⟨h1, h2⟩ := ih (i + 1) c
    exact ⟨h1, by simp [h2]⟩

/-! ## Claims -/

/-- Claim C10: the `MarketScorer.WEIGHTS` table {liquidity 0.25, edge 0.35,
timeframe 0.20, volatility 0.10, risk 0.10} sums to exactly 1. -/
theorem C10_weights_sum_one : (MarketScorer.WEIGHTS.map Prod.snd).sum = 1 := by
  norm_num [MarketScorer.WEIGHTS]

/-- Claim C8: `stop_all` invokes `stop()` in the exact reverse of the order in
which `start_all` invoked `start()`, for every contents of the ordered
supervisor map. -/
theorem C8_shutdown_reverses_startup (sups : List (String × SupervisorState)) :
    stopCalls (stop_all sups) = (startCalls (start_all sups)).reverse := by
  rw [startCalls_start_all]
  show stopCalls (stopSweep (sups.map Prod.fst).reverse) = (sups.map Prod.fst).reverse
  exact stopCalls_stopSweep _

/-- Claim C1: for a supervisor whose `run()` raises on every invocation, the
restart wrapper produces the exact trace run/backoff/start, run/backoff/start,
run — i.e. at most 3 (in fact exactly 2) restarts, each preceded by the fixed
backoff and a `start()` call — and then re-raises the third invocation's
exception out of the wrapper. -/
theorem C1_restart_bound (ε : Type) (exns : Nat → ε) :
    run_supervisor (fun i => RunResult.raised (exns i)) 10 0 0 =
      ([WrapEvent.runCall, WrapEvent.backoffSleep, WrapEvent.startCall,
        WrapEvent.runCall, WrapEvent.backoffSleep, WrapEvent.startCall,
        WrapEvent.runCall], some (exns 2)) ∧
    (run_supervisor (fun i => RunResult.raised (exns i)) 10 0 0).1.count
      WrapEvent.startCall ≤ 3 := by
  have h : run_supervisor (fun i => RunResult.raised (exns i)) 10 0 0 =
      ([WrapEvent.runCall, WrapEvent.backoffSleep, WrapEvent.startCall,
        WrapEvent.runCall, WrapEvent.backoffSleep, WrapEvent.startCall,
        WrapEvent.runCall], some (exns 2)) := rfl
  refine ⟨h, ?_⟩
  rw [h]
  show List.count WrapEvent.startCall
    [WrapEvent.runCall, WrapEvent.backoffSleep, WrapEvent.startCall,
     WrapEvent.runCall, WrapEvent.backoffSleep, WrapEvent.startCall,
     WrapEvent.runCall] ≤ 3
  decide

/-- Claim C9: `BaseSupervisor.run` catches every `_main_loop` exception other
than cancellation and keeps looping, so it never lets an exception escape; and
a supervisor whose `run()` always returns normally never triggers the restart
wrapper's crash branch (no restart counter increment, no backoff/start, no
re-raise). -/
theorem C9_mainloop_failures_contained (ε : Type) (behav : Nat → LoopResult ε)
    (started : Bool) (runs : Nat → RunResult ε)
    (hruns : ∀ i, runs i = RunResult.returned) :
    (∀ (fuel i : Nat) (e : ε), base_run behav started fuel i ≠ some (RunResult.raised e)) ∧
    (∀ (fuel i c : Nat), (run_supervisor runs fuel i c).2 = none ∧
      WrapEvent.startCall ∉ (run_supervisor runs fuel i c).1) :=
  ⟨base_run_never_raises ε behav started, run_supervisor_no_crash ε runs hruns⟩

/-- Witness for C9 at a concrete always-erroring main loop and an
always-returning `run()`. -/
theorem C9_mainloop_failures_contained_witness :
    base_run (fun _ => LoopResult.err (0 : Nat)) true 5 0 ≠
      some (RunResult.raised (0 : Nat)) ∧
    (run_supervisor (fun _ => (RunResult.returned : RunResult Nat)) 5 0 0).2 = none := by
  refine ⟨(C9_mainloop_failures_contained Nat (fun _ => LoopResult.err 0) true
      (fun _ => RunResult.returned) (fun _ => rfl)).1 5 0 0, ?_⟩
  exact ((C9_mainloop_failures_contained Nat (fun _ => LoopResult.err 0) true
      (fun _ => RunResult.returned) (fun _ => rfl)).2 5 0 0).1

theorem is_healthy_iff (now : ℚ) (s : SupervisorState) :
    SupervisorState.is_healthy now s = true ↔
      (s.healthy = true ∧ ∀ w ∈ s.workers, w.healthy = true ∧ now - w.last_heartbeat ≤ 300) := by
  simp [SupervisorState.is_healthy, List.all_eq_true, Bool.and_eq_true,
    Bool.not_eq_true', decide_eq_false_iff_not, not_lt]

/-- Claim C2 as stated is false: at the spec's exact example inputs
(`PositionSizer(capital=66.13)` with defaults, price 45¢, score 75, confidence
high, edge 0.6, risk 0.8, liquidity 0.9, zero exposure) the sizer does not
return a strictly positive size. -/
theorem C2_counterexample :
    ¬ (0 < (PositionSizer.calculate_position sizerSmall marketP45 75 "high"
        breakdownHigh 0).1) := by
  have h : PositionSizer.calculate_position sizerSmall marketP45 75 "high" breakdownHigh 0 =
      (0, "Position too small") := by
    norm_num [PositionSizer.calculate_position, PositionSizer.max_exposure_left,
      PositionSizer.sized_amount, PositionSizer.raw_amount, PositionSizer.kelly_edge,
      PositionSizer.true_prob, PositionSizer.confidence_mult, sizerSmall, marketP45,
      breakdownHigh]
    simp
    norm_num
  rw [h]
  norm_num

/-- Claim C2 (amended): at the spec's example inputs the sizer returns size 0
with the position-too-small reason — the risk- and confidence-adjusted
quarter-Kelly amount ≈$1.11 floors to $1, below the $2 minimum bet — and in
particular the returned size is at most floor(66.13×0.15)=9. -/
theorem C2_example_sizing :
    PositionSizer.calculate_position sizerSmall marketP45 75 "high" breakdownHigh 0 =
      (0, "Position too small") ∧
    (PositionSizer.calculate_position sizerSmall marketP45 75 "high" breakdownHigh 0).1 ≤ 9 := by
  have h : PositionSizer.calculate_position sizerSmall marketP45 75 "high" breakdownHigh 0 =
      (0, "Position too small") := by
    norm_num [PositionSizer.calculate_position, PositionSizer.max_exposure_left,
      PositionSizer.sized_amount, PositionSizer.raw_amount, PositionSizer.kelly_edge,
      PositionSizer.true_prob, PositionSizer.confidence_mult, sizerSmall, marketP45,
      breakdownHigh]
    simp
    norm_num
  exact ⟨h, by rw [h]; norm_num⟩

/-- Claim C6 as stated is false: at heartbeat age exactly 300 seconds the
code's `is_healthy` still returns true (it fails only for age strictly greater
than 300), while the claimed characterisation with a strict "below 300 seconds"
bound does not hold there. -/
theorem C6_counterexample :
    ¬ (SupervisorState.is_healthy 300 staleSup = true ↔ specHealthy 300 staleSup) := by
  intro h
  have h1 : SupervisorState.is_healthy 300 staleSup = true := by
    norm_num [SupervisorState.is_healthy, staleSup, staleWorker]
  obtain ⟨-, h3⟩ := h.mp h1
  have h4 := h3 staleWorker (by simp [staleSup])
  norm_num [staleWorker] at h4

/-- Claim C6 (amended): `is_healthy` is true iff the supervisor's own flag is
true and every owned worker's flag is true with heartbeat age at most 300
seconds (the code fails only strictly beyond 300); and immediately after a
worker refreshes via `heartbeat()` at the current time, the supervisor with
that worker replaced reports healthy again, provided its own flag is up and
every other worker is healthy and fresh. -/
theorem C6_health_invariant (now : ℚ) (s : SupervisorState) :
    (SupervisorState.is_healthy now s = true ↔
      (s.healthy = true ∧ ∀ w ∈ s.workers, w.healthy = true ∧ now - w.last_heartbeat ≤ 300)) ∧
    (∀ (u v : List WorkerState) (w : WorkerState),
      s.workers = u ++ w :: v → s.healthy = true →
      (∀ x ∈ u ++ v, x.healthy = true ∧ now - x.last_heartbeat ≤ 300) →
      SupervisorState.is_healthy now
        { s with workers := u ++ WorkerState.heartbeat now w :: v } = true) := by
  refine ⟨is_healthy_iff now s, ?_⟩
  intro u v w hsplit hflag hothers
  rw [is_healthy_iff]
  refine ⟨hflag, ?_⟩
  intro x hx
  simp only [List.mem_append, List.mem_cons] at hx
  rcases hx with hu | hw | hv
  · exact hothers x (by simp [hu])
  · subst hw
    refine ⟨rfl, ?_⟩
    simp [WorkerState.heartbeat]
  · exact hothers x (by simp [hv])

/-- Witness for C6: a supervisor whose only worker heartbeated 400 seconds ago
is healthy again immediately after that worker calls `heartbeat()` at time
400. -/
theorem C6_health_invariant_witness :
    SupervisorState.is_healthy 400
      { staleSup with workers := [] ++ WorkerState.heartbeat 400 staleWorker :: [] } = true := by
  refine (C6_health_invariant 400 staleSup).2 [] [] staleWorker rfl rfl ?_
  simp

/-- Claim C4: the sizer returns 0 (with a nonempty reason) whenever the
exposure headroom is below the minimum bet, or the score is below 40, or the
edge sub-score is below 0.3, or the liquidity sub-score is below 0.2,
regardless of every other input. -/
theorem C4_zero_guards (ps : PositionSizer) (market : MarketRecord) (score : ℚ)
    (confidence : String) (breakdown : Breakdown) (current_exposure : ℚ)
    (h : PositionSizer.max_exposure_left ps current_exposure < ps.min_bet ∨
         score < 40 ∨ breakdown.edge.getD 0 < 3/10 ∨ breakdown.liquidity.getD 0 < 2/10) :
    (PositionSizer.calculate_position ps market score confidence breakdown
      current_exposure).1 = 0 ∧
    (PositionSizer.calculate_position ps market score confidence breakdown
      current_exposure).2 ≠ "" := by
  unfold PositionSizer.calculate_position
  split_ifs <;>
    first
      | exact ⟨rfl, by simp⟩
      | (rcases h with hh | hh | hh | hh <;> linarith)

/-- Witness for C4: a score of 35 forces a zero size. -/
theorem C4_zero_guards_witness :
    (PositionSizer.calculate_position sizerSmall marketP45 35 "low" breakdownHigh 0).1 = 0 :=
  (C4_zero_guards sizerSmall marketP45 35 "low" breakdownHigh 0
    (Or.inr (Or.inl (by norm_num)))).1

/-- Claim C3 as stated is false: with capital 100 (defaults otherwise) and
current exposure 70 the exposure headroom is −10, so the sizer returns 0,
and 0 exceeds min(100×0.15, 100×0.60 − 70) = −10. -/
theorem C3_counterexample :
    ¬ ((PositionSizer.calculate_position sizerCap100 marketP45 75 "high"
        breakdownHigh 70).1 ≤
      min (sizerCap100.capital * sizerCap100.max_position_pct)
        (sizerCap100.capital * sizerCap100.max_total_exposure - 70)) := by
  have h : (PositionSizer.calculate_position sizerCap100 marketP45 75 "high"
      breakdownHigh 70).1 = 0 := by
    norm_num [PositionSizer.calculate_position, PositionSizer.max_exposure_left, sizerCap100]
  rw [h]
  norm_num [sizerCap100]

/-- Claim C3 (amended): for every input (with nonnegative capital and
per-position fraction), the returned size never exceeds the per-position cap
`capital × max_position_pct`, and never exceeds the exposure headroom clamped
below at zero — when the headroom is negative the sizer returns 0, which is
above the raw headroom but within the clamped bound. -/
theorem C3_position_caps (ps : PositionSizer) (market : MarketRecord) (score : ℚ)
    (confidence : String) (breakdown : Breakdown) (current_exposure : ℚ)
    (hcap : 0 ≤ ps.capital) (hpct : 0 ≤ ps.max_position_pct) :
    (PositionSizer.calculate_position ps market score confidence breakdown
      current_exposure).1 ≤ ps.capital * ps.max_position_pct ∧
    (PositionSizer.calculate_position ps market score confidence breakdown
      current_exposure).1 ≤ max (PositionSizer.max_exposure_left ps current_exposure) 0 := by
  have hz1 : (0:ℚ) ≤ ps.capital * ps.max_position_pct := mul_nonneg hcap hpct
  have hz2 : (0:ℚ) ≤ max (PositionSizer.max_exposure_left ps current_exposure) 0 :=
    le_max_right _ _
  have hfl : (PositionSizer.sized_amount ps market confidence breakdown current_exposure : ℚ) ≤
      min (min (PositionSizer.raw_amount ps market confidence breakdown)
        (ps.capital * ps.max_position_pct))
        (PositionSizer.max_exposure_left ps current_exposure) := Int.floor_le _
  have hs1 : PositionSizer.sized_amount ps market confidence breakdown current_exposure ≤
      ps.capital * ps.max_position_pct :=
    le_trans hfl (le_trans (min_le_left _ _) (min_le_right _ _))
  have hs2 : PositionSizer.sized_amount ps market confidence breakdown current_exposure ≤
      max (PositionSizer.max_exposure_left ps current_exposure) 0 :=
    le_trans hfl (le_trans (min_le_right _ _) (le_max_left _ _))
  unfold PositionSizer.calculate_position
  split_ifs <;> first | exact ⟨hz1, hz2⟩ | exact ⟨hs1, hs2⟩

/-- Witness for C3 at the spec's example sizing inputs. -/
theorem C3_position_caps_witness :
    (PositionSizer.calculate_position sizerSmall marketP45 75 "high" breakdownHigh 0).1 ≤
      sizerSmall.capital * sizerSmall.max_position_pct :=
  (C3_position_caps sizerSmall marketP45 75 "high" breakdownHigh 0
    (by norm_num [sizerSmall]) (by norm_num [sizerSmall])).1

theorem score_liquidity_bounds (m : MarketRecord) (hv : 0 ≤ m.volume_24h.getD 0)
    (hoi : 0 ≤ m.open_interest.getD 0) (hba : m.yes_bid.getD 0 ≤ m.yes_ask.getD 100) :
    0 ≤ MarketScorer.score_liquidity m ∧ MarketScorer.score_liquidity m ≤ 1 := by
  unfold MarketScorer.score_liquidity
  have hv1 : 0 ≤ min 1 (m.volume_24h.getD 0 / 5000) :=
    le_min (by norm_num) (div_nonneg hv (by norm_num))
  have hv2 : min 1 (m.volume_24h.getD 0 / 5000) ≤ 1 := min_le_left _ _
  have hoi1 : 0 ≤ min 1 (m.open_interest.getD 0 / 10000) :=
    le_min (by norm_num) (div_nonneg hoi (by norm_num))
  have hoi2 : min 1 (m.open_interest.getD 0 / 10000) ≤ 1 := min_le_left _ _
  have hsd : 0 ≤ (m.yes_ask.getD 100 - m.yes_bid.getD 0) / 10 :=
    div_nonneg (sub_nonneg.mpr hba) (by norm_num)
  have hsp1 : 0 ≤ (if m.yes_ask.getD 100 - m.yes_bid.getD 0 = 0 then (0:ℚ)
      else max 0 (1 - (m.yes_ask.getD 100 - m.yes_bid.getD 0) / 10)) := by
    split_ifs
    · exact le_refl 0
    · exact le_max_left _ _
  have hsp2 : (if m.yes_ask.getD 100 - m.yes_bid.getD 0 = 0 then (0:ℚ)
      else max 0 (1 - (m.yes_ask.getD 100 - m.yes_bid.getD 0) / 10)) ≤ 1 := by
    split_ifs
    · norm_num
    · exact max_le (by norm_num) (by linarith)
  constructor <;> linarith

theorem baseEdge_bounds (c t : String) :
    2/10 ≤ MarketScorer.baseEdge c t MarketScorer.edgeCategories ∧
    MarketScorer.baseEdge c t MarketScorer.edgeCategories ≤ 5/10 := by
  simp only [MarketScorer.edgeCategories, MarketScorer.baseEdge]
  split_ifs <;> norm_num

theorem score_edge_bounds (m : MarketRecord) :
    0 ≤ MarketScorer.score_edge m ∧ MarketScorer.score_edge m ≤ 1 := by
  obtain ⟨hb1, hb2⟩ :=
    baseEdge_bounds ((m.category.getD "").toLower) ((m.ticker.getD "").toLower)
  unfold MarketScorer.score_edge
  have hpe : 0 ≤ (if m.last_price.getD 50 < 20 then
      (20 - m.last_price.getD 50) / 20 * (3/10)
    else if m.last_price.getD 50 > 80 then (m.last_price.getD 50 - 80) / 20 * (3/10)
    else 0) := by
    split_ifs with h1 h2
    · exact mul_nonneg (div_nonneg (by linarith) (by norm_num)) (by norm_num)
    · exact mul_nonneg (div_nonneg (by linarith) (by norm_num)) (by norm_num)
    · exact le_refl 0
  exact ⟨le_min (by norm_num) (by linarith), min_le_left _ _⟩

theorem score_timeframe_bounds (m : MarketRecord) :
    0 ≤ MarketScorer.score_timeframe m ∧ MarketScorer.score_timeframe m ≤ 1 := by
  cases hm : m.closeDays with
  | none =>
    simp only [MarketScorer.score_timeframe, hm]
    norm_num
  | some d =>
    simp only [MarketScorer.score_timeframe, hm]
    split_ifs <;> norm_num

theorem score_volatility_bounds (m : MarketRecord)
    (hp0 : 0 ≤ m.last_price.getD 50) (hp1 : m.last_price.getD 50 ≤ 100) :
    0 ≤ MarketScorer.score_volatility m ∧ MarketScorer.score_volatility m ≤ 1 := by
  have habs : |m.last_price.getD 50 - 50| ≤ 50 := by
    rw [abs_le]
    constructor <;> linarith
  have hab0 : 0 ≤ |m.last_price.getD 50 - 50| := abs_nonneg _
  have h0 : 0 ≤ 1 - |m.last_price.getD 50 - 50| / 50 := by linarith
  have h1 : 1 - |m.last_price.getD 50 - 50| / 50 ≤ 1 := by linarith
  unfold MarketScorer.score_volatility
  split_ifs
  · exact ⟨le_min (by norm_num) (mul_nonneg h0 (by norm_num)), min_le_left _ _⟩
  · exact ⟨h0, h1⟩

theorem score_risk_bounds (m : MarketRecord)
    (hp0 : 0 ≤ m.last_price.getD 50) (hp1 : m.last_price.getD 50 ≤ 100)
    (hv : 0 ≤ m.volume_24h.getD 0) (hoi : 0 ≤ m.open_interest.getD 0)
    (hba : m.yes_bid.getD 0 ≤ m.yes_ask.getD 100) :
    0 ≤ MarketScorer.score_risk m ∧ MarketScorer.score_risk m ≤ 1 := by
  obtain ⟨hl0, hl1⟩ := score_liquidity_bounds m hv hoi hba
  unfold MarketScorer.score_risk
  split_ifs <;> constructor <;> linarith

/-- Claim C7 as stated is false for arbitrary field mappings: a record whose
last price is 500¢ gets a volatility sub-score of −8, outside [0,1]. -/
theorem C7_counterexample : ¬ (0 ≤ MarketScorer.score_volatility marketPrice500) := by
  norm_num [MarketScorer.score_volatility, marketPrice500]

/-- Claim C7 (amended): for every market record whose (defaulted) fields lie in
their Kalshi ranges — price in [0,100] cents, nonnegative 24h volume and open
interest, bid not above ask — every one of the five sub-scores lies in [0,1]
and the total score lies in [0,100].  For out-of-range fields the claim fails
(see the counterexample at price 500¢). -/
theorem C7_scores_bounded (m : MarketRecord)
    (hp0 : 0 ≤ m.last_price.getD 50) (hp1 : m.last_price.getD 50 ≤ 100)
    (hv : 0 ≤ m.volume_24h.getD 0) (hoi : 0 ≤ m.open_interest.getD 0)
    (hba : m.yes_bid.getD 0 ≤ m.yes_ask.getD 100) :
    (0 ≤ MarketScorer.score_liquidity m ∧ MarketScorer.score_liquidity m ≤ 1) ∧
    (0 ≤ MarketScorer.score_edge m ∧ MarketScorer.score_edge m ≤ 1) ∧
    (0 ≤ MarketScorer.score_timeframe m ∧ MarketScorer.score_timeframe m ≤ 1) ∧
    (0 ≤ MarketScorer.score_volatility m ∧ MarketScorer.score_volatility m ≤ 1) ∧
    (0 ≤ MarketScorer.score_risk m ∧ MarketScorer.score_risk m ≤ 1) ∧
    (0 ≤ MarketScorer.totalScore m ∧ MarketScorer.totalScore m ≤ 100) := by
  obtain ⟨hl0, hl1⟩ := score_liquidity_bounds m hv hoi hba
  obtain ⟨he0, he1⟩ := score_edge_bounds m
  obtain ⟨ht0, ht1⟩ := score_timeframe_bounds m
  obtain ⟨hvo0, hvo1⟩ := score_volatility_bounds m hp0 hp1
  obtain ⟨hr0, hr1⟩ := score_risk_bounds m hp0 hp1 hv hoi hba
  refine ⟨⟨hl0, hl1⟩, ⟨he0, he1⟩, ⟨ht0, ht1⟩, ⟨hvo0, hvo1⟩, ⟨hr0, hr1⟩, ?_, ?_⟩ <;>
    · unfold MarketScorer.totalScore
      linarith

/-- Witness for C7 at an in-range market record. -/
theorem C7_scores_bounded_witness :
    0 ≤ MarketScorer.totalScore marketValid ∧ MarketScorer.totalScore marketValid ≤ 100 :=
  (C7_scores_bounded marketValid (by norm_num [marketValid]) (by norm_num [marketValid])
    (by norm_num [marketValid]) (by norm_num [marketValid])
    (by norm_num [marketValid])).2.2.2.2.2

/-- Claim C5 as stated is false on the spread-0 boundary: widening the spread
from 0 to 1 cent (all other fields equal) strictly increases the liquidity
score, because a zero spread is scored 0 ("no market") while a 1-cent spread
scores 0.9 on the spread component. -/
theorem C5_counterexample :
    marketSpread0.yes_ask.getD 100 - marketSpread0.yes_bid.getD 0 ≤
      marketSpread1.yes_ask.getD 100 - marketSpread1.yes_bid.getD 0 ∧
    ¬ (MarketScorer.score_liquidity marketSpread1 ≤
        MarketScorer.score_liquidity marketSpread0) := by
  constructor
  · norm_num [marketSpread0, marketSpread1]
  · norm_num [MarketScorer.score_liquidity, marketSpread0, marketSpread1]

/-- Claim C5 (amended): holding the other fields fixed, the liquidity score is
monotonically non-decreasing in 24h volume and in open interest, and
monotonically non-increasing in the spread width over strictly positive
spreads.  The spread-0 case must be excluded: the code scores it 0 ("no
market"), below every positive spread under 10¢. -/
theorem C5_liquidity_monotone (m : MarketRecord) (v1 v2 o1 o2 b a1 a2 : ℚ)
    (hv : v1 ≤ v2) (ho : o1 ≤ o2) (hb1 : b < a1) (ha : a1 ≤ a2) :
    MarketScorer.score_liquidity { m with volume_24h := some v1 } ≤
      MarketScorer.score_liquidity { m with volume_24h := some v2 } ∧
    MarketScorer.score_liquidity { m with open_interest := some o1 } ≤
      MarketScorer.score_liquidity { m with open_interest := some o2 } ∧
    MarketScorer.score_liquidity { m with yes_bid := some b, yes_ask := some a2 } ≤
      MarketScorer.score_liquidity { m with yes_bid := some b, yes_ask := some a1 } := by
  refine ⟨?_, ?_, ?_⟩
  · unfold MarketScorer.score_liquidity
    simp only [Option.getD_some]
    gcongr
  · unfold MarketScorer.score_liquidity
    simp only [Option.getD_some]
    gcongr
  · unfold MarketScorer.score_liquidity
    simp only [Option.getD_some]
    have h1 : ¬ (a1 - b = 0) := sub_ne_zero.mpr (ne_of_gt hb1)
    have h2 : ¬ (a2 - b = 0) := sub_ne_zero.mpr (ne_of_gt (lt_of_lt_of_le hb1 ha))
    rw [if_neg h1, if_neg h2]
    have hmax : max 0 (1 - (a2 - b) / 10) ≤ max 0 (1 - (a1 - b) / 10) := by
      refine max_le_max (le_refl 0) ?_
      have hd : (a1 - b) / 10 ≤ (a2 - b) / 10 := by linarith
      linarith
    exact add_le_add (add_le_add (le_refl _)
      (mul_le_mul_of_nonneg_right hmax (by norm_num))) (le_refl _)

/-- Witness for C5: concrete volumes 0 ≤ 1, open interests 0 ≤ 1, and spreads
2 ≤ 3 over bid 44. -/
theorem C5_liquidity_monotone_witness :
    MarketScorer.score_liquidity { marketValid with yes_bid := some 44, yes_ask := some 47 } ≤
      MarketScorer.score_liquidity { marketValid with yes_bid := some 44, yes_ask := some 46 } :=
  (C5_liquidity_monotone marketValid 0 1 0 1 44 46 47 (by norm_num) (by norm_num)
    (by norm_num) (by norm_num)).2.2
